import Mathlib

/-!
Verification of the activity-to-score reconciliation engine of the
gamified GitHub/Discord bot (source files gamified_bot.py and demo.py).

Timestamps are modelled as integers (seconds since the Unix epoch, so the
epoch itself is 0).  Python integers are modelled as Int.  The per-user
record dictionary is modelled by the structure UserData, the bot state by
BotState, and the repository activity visible through the GitHub client by
the structure Repo.
-/

/-- One commit of the monitored repository, as seen through the GitHub
client.  `author` is the commit author login, `timestamp` the commit time
used by the `since` filter of `repo.get_commits`. -/
structure Commit where
  author : String
  timestamp : Int
deriving DecidableEq

/-- One issue comment, as returned by `repo.get_issues_comments`.
`author` is `c.user.login`; `timestamp` is the time that the external
`since` filter of the GitHub API applies to (the last-updated time of the
comment). -/
structure Comment where
  author : String
  timestamp : Int
deriving DecidableEq

/-- One pull-request review, as returned by `pr.get_reviews`.  `author` is
`r.user.login`, `submitted_at` the submission time. -/
structure Review where
  author : String
  submitted_at : Int
deriving DecidableEq

/-- One pull request together with its reviews. -/
structure PullRequest where
  reviews : List Review
deriving DecidableEq

/-- The activity of the monitored repository, as visible through the
GitHub client.  `pulls` is already ordered as returned by
`repo.get_pulls(state=all, sort=updated, direction=desc)`, i.e. most
recently updated first. -/
structure Repo where
  commits : List Commit
  comments : List Comment
  pulls : List PullRequest
deriving DecidableEq

/-- The per-user record of `self.user_data` (gamified_bot.py lines
131-137): github_user, points, badges, current_challenge,
last_activity_check. -/
structure UserData where
  github_user : String
  points : Int
  badges : List String
  current_challenge : Option String
  last_activity_check : Int
deriving DecidableEq

/-- The bot state relevant to reconciliation: the tracked users (an
insertion-ordered dictionary, modelled as an association list keyed by the
Discord id) and `self.last_global_check`. -/
structure BotState where
  user_data : List (Nat × UserData)
  last_global_check : Int
deriving DecidableEq

/-- `repo.get_commits(author=gh_user, since=last_check)` (gamified_bot.py
line 209).  Both filters are applied by the external GitHub API; the
`since` bound is modelled from the spec as the exclusive lower bound that
the watermark is specified to be. -/
def countedCommits (repo : Repo) (author : String) (since : Int) : List Commit :=
  repo.commits.filter (fun c => c.author == author && decide (since < c.timestamp))

/-- `repo.get_issues_comments(since=last_check)` (gamified_bot.py line
212).  The `since` bound is applied by the external GitHub API, modelled
from the spec as the exclusive lower bound that the watermark is specified
to be. -/
def commentsSince (repo : Repo) (since : Int) : List Comment :=
  repo.comments.filter (fun c => decide (since < c.timestamp))

/-- The comprehension `[c for c in comments if c.user.login == gh_user]`
(gamified_bot.py line 213) applied to the comments since the watermark. -/
def userComments (repo : Repo) (gh_user : String) (since : Int) : List Comment :=
  (commentsSince repo since).filter (fun c => c.author == gh_user)

/-- The comprehension
`[r for r in reviews if r.user.login == gh_user and r.submitted_at > last_check]`
(gamified_bot.py line 219) for one pull request. -/
def userReviews (pr : PullRequest) (gh_user : String) (last_check : Int) : List Review :=
  pr.reviews.filter (fun r => r.author == gh_user && decide (last_check < r.submitted_at))

/-- The accumulation of `new_points` in `poll_github_once`
(gamified_bot.py lines 206-220): commits times 10, the user's issue
comments times 5, and, for each of the first 10 pull requests
(`prs[:10]`), the user's reviews since the watermark times 15. -/
def computeNewPoints (repo : Repo) (gh_user : String) (last_check : Int) : Int :=
  ((countedCommits repo gh_user last_check).length : Int) * 10
    + ((userComments repo gh_user last_check).length : Int) * 5
    + ((repo.pulls.take 10).map
        (fun pr => ((userReviews pr gh_user last_check).length : Int) * 15)).sum

/-- Number of commits counted for the user since the watermark. -/
def commitCount (repo : Repo) (gh_user : String) (since : Int) : Nat :=
  (countedCommits repo gh_user since).length

/-- Number of issue comments counted for the user since the watermark. -/
def commentCount (repo : Repo) (gh_user : String) (since : Int) : Nat :=
  (userComments repo gh_user since).length

/-- Number of pull-request reviews counted for the user since the
watermark, over the 10 most recently updated pull requests. -/
def reviewCount (repo : Repo) (gh_user : String) (since : Int) : Nat :=
  ((repo.pulls.take 10).map (fun pr => (userReviews pr gh_user since).length)).sum

/-- `update_badges` (gamified_bot.py lines 288-296): appends each badge
whose threshold is met and that is not already present, in the order
Bronze, Silver, Gold. -/
def update_badges (points : Int) (badges : List String) : List String :=
  let b1 := if 10 ≤ points ∧ "Bronze Collaborator" ∉ badges
    then badges ++ ["Bronze Collaborator"] else badges
  let b2 := if 50 ≤ points ∧ "Silver Collaborator" ∉ b1
    then b1 ++ ["Silver Collaborator"] else b1
  if 100 ≤ points ∧ "Gold Collaborator" ∉ b2 then b2 ++ ["Gold Collaborator"] else b2

/-- Python truthiness of `data[current_challenge]` in the condition
`if data[current_challenge] and new_points > 0` (gamified_bot.py line
225): None and the empty string are falsy, every other string is truthy. -/
def challengeTruthy : Option String → Bool
  | none => false
  | some s => s != ""

/-- The per-user body of `poll_github_once` (gamified_bot.py lines
204-228) on the success path: accumulate `new_points`, add them to
`points`, call `update_badges`, then award the +20 challenge bonus and
clear the challenge when a challenge is set (truthy) and `new_points > 0`,
and finally set `last_activity_check` to the pass-start time `now`. -/
def processUser (repo : Repo) (now : Int) (data : UserData) : UserData :=
  let new_points := computeNewPoints repo data.github_user data.last_activity_check
  let points1 := data.points + new_points
  let badges1 := update_badges points1 data.badges
  if challengeTruthy data.current_challenge && decide (0 < new_points) then
    { data with
      points := points1 + 20
      badges := badges1
      current_challenge := none
      last_activity_check := now }
  else
    { data with
      points := points1
      badges := badges1
      last_activity_check := now }

/-- `poll_github_once` of gamified_bot.py (lines 200-234): captures `now`
once, iterates the users in order, and wraps each user in try/except so
that a fetch failure for one user (modelled by the oracle `failing` on the
GitHub handle) leaves that user unchanged and continues with the next.
After the loop `last_global_check` is set to `now` unconditionally.
Returns the new state together with the records passed to
`save_user_data`, in call order. -/
def poll_github_once (failing : String → Bool) (repo : Repo) (now : Int)
    (st : BotState) : BotState × List (Nat × UserData) :=
  ({ user_data := st.user_data.map (fun p =>
        if failing p.2.github_user then p else (p.1, processUser repo now p.2)),
     last_global_check := now },
   st.user_data.filterMap (fun p =>
     if failing p.2.github_user then none else some (p.1, processUser repo now p.2)))

/-- `poll_github_once` of demo.py (lines 113-141): the same per-user logic
but with no try/except, so the first failing fetch raises out of the loop.
Users already processed keep their in-place updates, the failing user and
all later users are untouched, and `last_global_check` is not advanced.
The returned Bool is true when an exception escaped the pass. -/
def poll_demo_go (failing : String → Bool) (repo : Repo) (now : Int) :
    List (Nat × UserData) → List (Nat × UserData) × Bool
  | [] => ([], false)
  | p :: rest =>
    if failing p.2.github_user then (p :: rest, true)
    else
      let r := poll_demo_go failing repo now rest
      ((p.1, processUser repo now p.2) :: r.1, r.2)

/-- State-level wrapper of the demo.py pass: on an escaped exception the
global watermark is left unchanged; otherwise it is set to `now`. -/
def poll_github_once_demo (failing : String → Bool) (repo : Repo) (now : Int)
    (st : BotState) : BotState × Bool :=
  let r := poll_demo_go failing repo now st.user_data
  if r.2 then ({ st with user_data := r.1 }, true)
  else ({ user_data := r.1, last_global_check := now }, false)

/-- Outcome of one attempt of the underlying Gemini HTTP call.
`rateLimited msg` stands for an exception whose text contains "429" (the
branch `if "429" in str(e)` of gamified_bot.py line 279), `failed msg` for
any other exception, `ok text` for a successful response. -/
inductive ApiResult where
  | ok (text : String)
  | rateLimited (msg : String)
  | failed (msg : String)
deriving DecidableEq

/-- Result of `call_gemini`: the returned string, the list of
`time.sleep` delays in seconds, and the number of attempts made. -/
structure GeminiCall where
  result : String
  delays : List Nat
  attempts : Nat
deriving DecidableEq

/-- The loop `for attempt in range(3)` of `call_gemini` (gamified_bot.py
lines 270-286): a successful attempt returns its text; a non-rate-limit
exception returns "Error calling AI: " plus the message immediately; a
rate-limit exception sleeps `2 ** attempt` seconds and retries.  When the
range is exhausted the literal bounded-failure message is returned. -/
def call_gemini_aux (api : Nat → ApiResult) (attempt : Nat) : Nat → GeminiCall
  | 0 => ⟨"Error: Gemini API rate limit exceeded.", [], 0⟩
  | n + 1 =>
    match api attempt with
    | .ok t => ⟨t, [], 1⟩
    | .failed m => ⟨"Error calling AI: " ++ m, [], 1⟩
    | .rateLimited _ =>
      let r := call_gemini_aux api (attempt + 1) n
      ⟨r.result, 2 ^ attempt :: r.delays, r.attempts + 1⟩

/-- `call_gemini` of gamified_bot.py (lines 265-286): three attempts,
starting at attempt 0. -/
def call_gemini (api : Nat → ApiResult) : GeminiCall :=
  call_gemini_aux api 0 3

/-- `call_gemini` of demo.py (lines 163-176): a single attempt with no
retry; every exception, rate limit included, is returned immediately as
"Error calling AI: " plus the message. -/
def call_gemini_demo : ApiResult → String
  | .ok t => t
  | .rateLimited m => "Error calling AI: " ++ m
  | .failed m => "Error calling AI: " ++ m

/-- The initial value of `self.last_global_check` (gamified_bot.py line
48): `datetime.now(timezone.utc) - timedelta(seconds=time.time())`.
`t1` is the reading of `datetime.now` as seconds since the Unix epoch and
`t2` the reading of `time.time()` (seconds since the Unix epoch by
definition). -/
def init_last_global_check (t1 t2 : Int) : Int := t1 - t2

/-- The record created by the `link_github` command (gamified_bot.py lines
131-137) for a fresh user: zero points, no badges, no challenge, and the
current `self.last_global_check` as the initial watermark. -/
def link_github (global_check : Int) (handle : String) : UserData :=
  { github_user := handle
    points := 0
    badges := []
    current_challenge := none
    last_activity_check := global_check }

/-! ## Helper lemmas -/

/-- The watermark of a processed user is the pass-start time, whether or
not the challenge branch was taken. -/
theorem processUser_last_activity_check (repo : Repo) (now : Int) (d : UserData) :
    (processUser repo now d).last_activity_check = now := by
  simp only [processUser]
  split <;> rfl

/-- The badge list of a processed user is always the evaluation of the
pre-bonus score, the prior score plus the freshly computed delta. -/
theorem processUser_badges (repo : Repo) (now : Int) (d : UserData) :
    (processUser repo now d).badges
      = update_badges (d.points + computeNewPoints repo d.github_user d.last_activity_check)
          d.badges := by
  simp only [processUser]
  split <;> rfl

/-- The accumulated delta decomposes into the three weighted counts. -/
theorem computeNewPoints_eq (repo : Repo) (u : String) (s : Int) :
    computeNewPoints repo u s
      = 10 * (commitCount repo u s : Int) + 5 * (commentCount repo u s : Int)
        + 15 * (reviewCount repo u s : Int) := by
  simp only [computeNewPoints, commitCount, commentCount, reviewCount]
  have hsum : ((repo.pulls.take 10).map (fun pr => ((userReviews pr u s).length : Int) * 15)).sum
      = 15 * ((((repo.pulls.take 10).map (fun pr => (userReviews pr u s).length)).sum : Nat) : Int) := by
    induction repo.pulls.take 10 with
    | nil => simp
    | cons hd tl ih =>
      simp only [List.map_cons, List.sum_cons, ih]
      push_cast
      ring
  rw [hsum]
  ring

/-- Badge evaluation never removes a badge that is already present. -/
theorem mem_update_badges_of_mem (p : Int) (b : List String) (x : String) (hx : x ∈ b) :
    x ∈ update_badges p b := by
  simp only [update_badges]
  split_ifs <;> simp_all [List.mem_append]

/-- Bronze is present after evaluation whenever the score is at least 10. -/
theorem bronze_mem_update_badges (p : Int) (b : List String) (hp : 10 ≤ p) :
    "Bronze Collaborator" ∈ update_badges p b := by
  simp only [update_badges]
  split_ifs <;> simp_all [List.mem_append]

/-- Silver is present after evaluation whenever the score is at least 50. -/
theorem silver_mem_update_badges (p : Int) (b : List String) (hp : 50 ≤ p) :
    "Silver Collaborator" ∈ update_badges p b := by
  simp only [update_badges]
  split_ifs <;> simp_all [List.mem_append]

/-- Gold is present after evaluation whenever the score is at least 100. -/
theorem gold_mem_update_badges (p : Int) (b : List String) (hp : 100 ≤ p) :
    "Gold Collaborator" ∈ update_badges p b := by
  simp only [update_badges]
  split_ifs <;> simp_all [List.mem_append]

/-- Badge evaluation is the identity on a badge list that already holds
every badge whose threshold is met. -/
theorem update_badges_eq_self (p : Int) (b : List String)
    (h1 : 10 ≤ p → "Bronze Collaborator" ∈ b)
    (h2 : 50 ≤ p → "Silver Collaborator" ∈ b)
    (h3 : 100 ≤ p → "Gold Collaborator" ∈ b) :
    update_badges p b = b := by
  have hc1 : ¬(10 ≤ p ∧ "Bronze Collaborator" ∉ b) := fun h => h.2 (h1 h.1)
  have hc2 : ¬(50 ≤ p ∧ "Silver Collaborator" ∉ b) := fun h => h.2 (h2 h.1)
  have hc3 : ¬(100 ≤ p ∧ "Gold Collaborator" ∉ b) := fun h => h.2 (h3 h.1)
  simp only [update_badges, if_neg hc1, if_neg hc2, if_neg hc3]

/-- Badge evaluation preserves duplicate-freeness: an appended badge was
not already present. -/
theorem nodup_update_badges (p : Int) (b : List String) (hb : b.Nodup) :
    (update_badges p b).Nodup := by
  simp only [update_badges]
  split_ifs <;> simp_all [List.nodup_append]

/-! ## Concrete data used by witnesses and counterexamples -/

/-- A small concrete repository: two commits by alice, one by bob, two
comments, one pull request with two reviews. -/
def exRepo : Repo :=
  { commits := [⟨"alice", 5⟩, ⟨"alice", 7⟩, ⟨"bob", 6⟩]
    comments := [⟨"alice", 6⟩, ⟨"carol", 9⟩]
    pulls := [⟨[⟨"alice", 8⟩, ⟨"bob", 4⟩]⟩] }

/-- A repository with no activity at all. -/
def emptyRepo : Repo := { commits := [], comments := [], pulls := [] }

/-- A fresh user linked to alice with watermark 4 and no challenge. -/
def exUserAlice : UserData :=
  { github_user := "alice"
    points := 0
    badges := []
    current_challenge := none
    last_activity_check := 4 }

def exUserA : UserData :=
  { github_user := "alice"
    points := 1
    badges := []
    current_challenge := none
    last_activity_check := 1 }

def exUserB : UserData :=
  { github_user := "bob"
    points := 2
    badges := []
    current_challenge := none
    last_activity_check := 2 }

def exUserC : UserData :=
  { github_user := "carol"
    points := 3
    badges := []
    current_challenge := none
    last_activity_check := 3 }

/-- Fetch oracle where only the fetch for bob raises. -/
def failBob : String → Bool := fun s => s == "bob"

/-! ## Claim theorems -/

/-- C1: for a tracked user with no active challenge, one reconciliation
pass increases the score by exactly 10 per counted commit, 5 per counted
issue comment and 15 per counted review, and a user starting at score 0
ends at exactly that weighted sum. -/
theorem c1_delta_scoring (repo : Repo) (now : Int) (d : UserData)
    (h : d.current_challenge = none) :
    (processUser repo now d).points
        = d.points + (10 * (commitCount repo d.github_user d.last_activity_check : Int)
          + 5 * (commentCount repo d.github_user d.last_activity_check : Int)
          + 15 * (reviewCount repo d.github_user d.last_activity_check : Int)) ∧
    (d.points = 0 → (processUser repo now d).points
        = 10 * (commitCount repo d.github_user d.last_activity_check : Int)
          + 5 * (commentCount repo d.github_user d.last_activity_check : Int)
          + 15 * (reviewCount repo d.github_user d.last_activity_check : Int)) := by
  have hch : challengeTruthy d.current_challenge = false := by rw [h]; rfl
  have key : (processUser repo now d).points
      = d.points + computeNewPoints repo d.github_user d.last_activity_check := by
    simp [processUser, hch]
  rw [computeNewPoints_eq] at key
  exact ⟨key, fun h0 => by rw [key, h0, zero_add]⟩

/-- Witness for C1 at a concrete repository and user: alice has 2 commits,
1 comment and 1 review after watermark 4, so a zero-score user ends at
10*2 + 5*1 + 15*1 = 40. -/
theorem c1_delta_scoring_witness :
    exUserAlice.current_challenge = none ∧
    ((processUser exRepo 100 exUserAlice).points
        = exUserAlice.points
          + (10 * (commitCount exRepo exUserAlice.github_user exUserAlice.last_activity_check : Int)
            + 5 * (commentCount exRepo exUserAlice.github_user exUserAlice.last_activity_check : Int)
            + 15 * (reviewCount exRepo exUserAlice.github_user exUserAlice.last_activity_check : Int)) ∧
      (exUserAlice.points = 0 → (processUser exRepo 100 exUserAlice).points
        = 10 * (commitCount exRepo exUserAlice.github_user exUserAlice.last_activity_check : Int)
          + 5 * (commentCount exRepo exUserAlice.github_user exUserAlice.last_activity_check : Int)
          + 15 * (reviewCount exRepo exUserAlice.github_user exUserAlice.last_activity_check : Int))) :=
  ⟨rfl, c1_delta_scoring exRepo 100 exUserAlice rfl⟩

/-- C2: one pass captures a single timestamp `now`; every user saved in
the pass has its watermark set to exactly that shared pass-start time
(also when all activity counts are zero, since the watermark assignment is
unconditional), and after the loop the global watermark is advanced to the
same `now`. -/
theorem c2_shared_watermark (failing : String → Bool) (repo : Repo) (now : Int)
    (st : BotState) :
    (poll_github_once failing repo now st).1.last_global_check = now ∧
    (∀ p ∈ (poll_github_once failing repo now st).2, p.2.last_activity_check = now) ∧
    (∀ p ∈ (poll_github_once failing repo now st).1.user_data,
      failing p.2.github_user = false → p.2.last_activity_check = now) := by
  refine ⟨rfl, fun p hp => ?_, fun p hp hfp => ?_⟩
  · rcases List.mem_filterMap.mp hp with ⟨a, _, hfa⟩
    by_cases h : failing a.2.github_user
    · simp [poll_github_once, h] at hfa
    · simp only [poll_github_once, h, if_neg, Bool.false_eq_true, ite_false] at hfa
      rw [← Option.some_inj.mp hfa]
      exact processUser_last_activity_check repo now a.2
  · rcases List.mem_map.mp hp with ⟨a, _, hfa⟩
    by_cases h : failing a.2.github_user
    · rw [if_pos h] at hfa
      rw [hfa] at h
      rw [h] at hfp
      cases hfp
    · rw [if_neg h] at hfa
      rw [← hfa]
      exact processUser_last_activity_check repo now a.2

/-- Witness for C2: a concrete pass at time 100 over alice (succeeds) and
bob (fetch fails) against the empty repository; every saved record and
every non-failing record carries watermark 100 and the global watermark
becomes 100. -/
theorem c2_shared_watermark_witness :
    (poll_github_once failBob emptyRepo 100 ⟨[(1, exUserA), (2, exUserB)], 5⟩).1.last_global_check
        = 100 ∧
    (∀ p ∈ (poll_github_once failBob emptyRepo 100 ⟨[(1, exUserA), (2, exUserB)], 5⟩).2,
      p.2.last_activity_check = 100) ∧
    (∀ p ∈ (poll_github_once failBob emptyRepo 100 ⟨[(1, exUserA), (2, exUserB)], 5⟩).1.user_data,
      failBob p.2.github_user = false → p.2.last_activity_check = 100) :=
  c2_shared_watermark failBob emptyRepo 100 ⟨[(1, exUserA), (2, exUserB)], 5⟩

/-- C4: the watermark is an exclusive lower bound for all three kinds of
counted activity: no counted commit, issue comment or pull-request review
has a timestamp at or before the watermark used for the query. -/
theorem c4_exclusive_watermark (repo : Repo) (handle : String) (since : Int) :
    (∀ c ∈ countedCommits repo handle since, since < c.timestamp) ∧
    (∀ c ∈ userComments repo handle since, since < c.timestamp) ∧
    (∀ pr ∈ repo.pulls.take 10, ∀ r ∈ userReviews pr handle since, since < r.submitted_at) := by
  refine ⟨fun c hc => ?_, fun c hc => ?_, fun pr _ r hr => ?_⟩
  · have := (List.mem_filter.mp hc).2
    simp only [Bool.and_eq_true, decide_eq_true_eq] at this
    exact this.2
  · have := (List.mem_filter.mp ((List.mem_filter.mp hc).1)).2
    simpa using this
  · have := (List.mem_filter.mp hr).2
    simp only [Bool.and_eq_true, decide_eq_true_eq] at this
    exact this.2

/-- Witness for C4 at the concrete repository with watermark 6: every
counted commit, comment and review of alice is strictly newer than 6. -/
theorem c4_exclusive_watermark_witness :
    (∀ c ∈ countedCommits exRepo "alice" 6, 6 < c.timestamp) ∧
    (∀ c ∈ userComments exRepo "alice" 6, 6 < c.timestamp) ∧
    (∀ pr ∈ exRepo.pulls.take 10, ∀ r ∈ userReviews pr "alice" 6, 6 < r.submitted_at) :=
  c4_exclusive_watermark exRepo "alice" 6

/-- C7 (confirmed): badge thresholds are cumulative and deterministic in
the score: after evaluation Bronze is present whenever the score is at
least 10, Silver whenever at least 50, Gold whenever at least 100; a
badge-less user reaching score 10 gains exactly Bronze, and a Bronze
holder crossing 50 gains Silver while retaining Bronze. -/
theorem c7_badge_thresholds (p : Int) (b : List String) :
    (10 ≤ p → "Bronze Collaborator" ∈ update_badges p b) ∧
    (50 ≤ p → "Silver Collaborator" ∈ update_badges p b) ∧
    (100 ≤ p → "Gold Collaborator" ∈ update_badges p b) ∧
    (10 ≤ p → p < 50 → update_badges p [] = ["Bronze Collaborator"]) ∧
    (50 ≤ p → p < 100 →
      update_badges p ["Bronze Collaborator"]
        = ["Bronze Collaborator", "Silver Collaborator"]) := by
  refine ⟨fun h => bronze_mem_update_badges p b h, fun h => silver_mem_update_badges p b h,
    fun h => gold_mem_update_badges p b h, fun h1 h2 => ?_, fun h1 h2 => ?_⟩
  · simp only [update_badges]
    split_ifs <;> simp_all <;> omega
  · simp only [update_badges]
    split_ifs <;> simp_all
    omega

/-- Witness for C7 at concrete scores 100, 10 and 55: a score of 100
yields all three badges, a badge-less user at 10 ends with exactly Bronze,
and a Bronze holder at 55 ends with Bronze and Silver. -/
theorem c7_badge_thresholds_witness :
    "Bronze Collaborator" ∈ update_badges 100 [] ∧
    "Silver Collaborator" ∈ update_badges 100 [] ∧
    "Gold Collaborator" ∈ update_badges 100 [] ∧
    update_badges 10 [] = ["Bronze Collaborator"] ∧
    update_badges 55 ["Bronze Collaborator"]
      = ["Bronze Collaborator", "Silver Collaborator"] :=
  ⟨(c7_badge_thresholds 100 []).1 (by decide),
   (c7_badge_thresholds 100 []).2.1 (by decide),
   (c7_badge_thresholds 100 []).2.2.1 (by decide),
   (c7_badge_thresholds 10 []).2.2.2.1 (by decide) (by decide),
   (c7_badge_thresholds 55 ["Bronze Collaborator"]).2.2.2.2 (by decide) (by decide)⟩

/-- C8 (confirmed): badge evaluation is idempotent (a second evaluation at
the same score changes nothing, so no badge is ever duplicated: it also
preserves duplicate-freeness) and monotone (a badge already present is
never removed). -/
theorem c8_badge_idempotent_monotone (p : Int) (b : List String) :
    update_badges p (update_badges p b) = update_badges p b ∧
    (∀ x ∈ b, x ∈ update_badges p b) ∧
    (b.Nodup → (update_badges p b).Nodup) := by
  refine ⟨?_, fun x hx => mem_update_badges_of_mem p b x hx, nodup_update_badges p b⟩
  exact update_badges_eq_self p (update_badges p b)
    (fun h => bronze_mem_update_badges p b h)
    (fun h => silver_mem_update_badges p b h)
    (fun h => gold_mem_update_badges p b h)

/-- Witness for C8 at score 60 with an existing Bronze badge. -/
theorem c8_badge_idempotent_monotone_witness :
    update_badges 60 (update_badges 60 ["Bronze Collaborator"])
        = update_badges 60 ["Bronze Collaborator"] ∧
    (∀ x ∈ ["Bronze Collaborator"], x ∈ update_badges 60 ["Bronze Collaborator"]) ∧
    (("Bronze Collaborator" :: ([] : List String)).Nodup →
      (update_badges 60 ["Bronze Collaborator"]).Nodup) :=
  c8_badge_idempotent_monotone 60 ["Bronze Collaborator"]

/-- Concrete repository for the fault-isolation pass: one commit each by
alice and carol, newer than their watermarks. -/
def exRepoAC : Repo :=
  { commits := [⟨"alice", 50⟩, ⟨"carol", 50⟩], comments := [], pulls := [] }

/-- C3 counterexample, on the demo.py variant of `poll_github_once`: in a
pass over alice, bob, carol where the fetch for bob raises, the exception
escapes the loop (the pass aborts), carol keeps her old record (watermark
3, not the pass time 100, score unchanged) and the global watermark stays
at 5.  The claim says the pass does not abort and carol still gets updated
score, watermark and persisted record. -/
theorem c3_counterexample :
    (poll_github_once_demo failBob exRepoAC 100
        ⟨[(1, exUserA), (2, exUserB), (3, exUserC)], 5⟩).2 = true ∧
    (poll_github_once_demo failBob exRepoAC 100
        ⟨[(1, exUserA), (2, exUserB), (3, exUserC)], 5⟩).1.user_data
      = [(1, processUser exRepoAC 100 exUserA), (2, exUserB), (3, exUserC)] ∧
    (poll_github_once_demo failBob exRepoAC 100
        ⟨[(1, exUserA), (2, exUserB), (3, exUserC)], 5⟩).1.last_global_check = 5 ∧
    exUserC.last_activity_check = 3 ∧ exUserC.points = 3 := by decide

/-- C3 as amended (the gamified_bot.py variant): when the fetch for the
middle user of a three-user pass raises, the pass still processes, saves
and advances the two other users, leaves the failing user exactly as
before, and advances the global watermark. -/
theorem c3_fault_isolation (failing : String → Bool) (repo : Repo) (now g : Int)
    (idA idB idC : Nat) (a b c : UserData)
    (ha : failing a.github_user = false) (hb : failing b.github_user = true)
    (hc : failing c.github_user = false) :
    poll_github_once failing repo now ⟨[(idA, a), (idB, b), (idC, c)], g⟩
      = (⟨[(idA, processUser repo now a), (idB, b), (idC, processUser repo now c)], now⟩,
         [(idA, processUser repo now a), (idC, processUser repo now c)]) := by
  simp [poll_github_once, ha, hb, hc]

/-- Witness for the amended C3 at the concrete three-user pass. -/
theorem c3_fault_isolation_witness :
    failBob exUserA.github_user = false ∧ failBob exUserB.github_user = true ∧
    failBob exUserC.github_user = false ∧
    poll_github_once failBob exRepoAC 100 ⟨[(1, exUserA), (2, exUserB), (3, exUserC)], 5⟩
      = (⟨[(1, processUser exRepoAC 100 exUserA), (2, exUserB),
           (3, processUser exRepoAC 100 exUserC)], 100⟩,
         [(1, processUser exRepoAC 100 exUserA), (3, processUser exRepoAC 100 exUserC)]) :=
  ⟨rfl, rfl, rfl,
   c3_fault_isolation failBob exRepoAC 100 5 1 2 3 exUserA exUserB exUserC rfl rfl rfl⟩

/-- Repository giving erin one counted commit (delta 10). -/
def exRepoErin : Repo := { commits := [⟨"erin", 5⟩], comments := [], pulls := [] }

/-- User erin whose active challenge is the empty string. -/
def exUserErin : UserData :=
  { github_user := "erin"
    points := 0
    badges := []
    current_challenge := some ""
    last_activity_check := 0 }

/-- C5 counterexample: erin has activeChallenge set (to the empty string)
and a strictly positive delta of 10, yet the pass neither clears the
challenge nor adds the +20 bonus, because the Python condition
`if data[current_challenge] and new_points > 0` treats the empty string as
falsy.  The claim would require current_challenge = none and points
10 + 20 = 30. -/
theorem c5_counterexample :
    exUserErin.current_challenge ≠ none ∧
    0 < computeNewPoints exRepoErin exUserErin.github_user exUserErin.last_activity_check ∧
    (processUser exRepoErin 100 exUserErin).current_challenge = some "" ∧
    (processUser exRepoErin 100 exUserErin).points = 10 ∧
    (processUser exRepoErin 100 exUserErin).points ≠ 30 := by decide

/-- C5 as amended: for a user whose active challenge is a non-empty
string, a pass with strictly positive delta clears the challenge and adds
exactly delta + 20 to the score, while a pass with zero delta leaves the
challenge set and adds nothing. -/
theorem c5_challenge_completion (repo : Repo) (now : Int) (d : UserData) (s : String)
    (hset : d.current_challenge = some s) (hne : s ≠ "") :
    (0 < computeNewPoints repo d.github_user d.last_activity_check →
      (processUser repo now d).current_challenge = none ∧
      (processUser repo now d).points
        = d.points + computeNewPoints repo d.github_user d.last_activity_check + 20) ∧
    (computeNewPoints repo d.github_user d.last_activity_check = 0 →
      (processUser repo now d).current_challenge = some s ∧
      (processUser repo now d).points = d.points) := by
  have htr : challengeTruthy d.current_challenge = true := by
    rw [hset]
    simpa [challengeTruthy] using hne
  constructor
  · intro hpos
    simp [processUser, htr, hpos]
  · intro hzero
    simp [processUser, htr, hzero, hset]

/-- Repository giving dana one counted commit (delta 10). -/
def exRepoDana : Repo := { commits := [⟨"dana", 5⟩], comments := [], pulls := [] }

/-- User dana with the non-empty active challenge "Fix a bug". -/
def exUserDana : UserData :=
  { github_user := "dana"
    points := 0
    badges := []
    current_challenge := some "Fix a bug"
    last_activity_check := 0 }

/-- Witness for the amended C5: dana holds the non-empty challenge "Fix a
bug", earns a delta of 10, and ends the pass with no challenge and score
0 + 10 + 20 = 30. -/
theorem c5_challenge_completion_witness :
    exUserDana.current_challenge = some "Fix a bug" ∧ "Fix a bug" ≠ "" ∧
    0 < computeNewPoints exRepoDana exUserDana.github_user exUserDana.last_activity_check ∧
    (processUser exRepoDana 100 exUserDana).current_challenge = none ∧
    (processUser exRepoDana 100 exUserDana).points
      = exUserDana.points
        + computeNewPoints exRepoDana exUserDana.github_user exUserDana.last_activity_check
        + 20 :=
  ⟨rfl, by decide, by decide,
   ((c5_challenge_completion exRepoDana 100 exUserDana "Fix a bug" rfl (by decide)).1
     (by decide)).1,
   ((c5_challenge_completion exRepoDana 100 exUserDana "Fix a bug" rfl (by decide)).1
     (by decide)).2⟩

/-- Repository giving dave four counted commits (delta 40). -/
def exRepoDave : Repo :=
  { commits := [⟨"dave", 5⟩, ⟨"dave", 6⟩, ⟨"dave", 7⟩, ⟨"dave", 8⟩]
    comments := []
    pulls := [] }

/-- User dave at score 0 with an open challenge. -/
def exUserDave : UserData :=
  { github_user := "dave"
    points := 0
    badges := []
    current_challenge := some "Review a PR"
    last_activity_check := 0 }

/-- C6 counterexample: dave earns a delta of 40 and the +20 challenge
bonus, ending the pass at score 60, yet his badge list is only Bronze:
`update_badges` ran on the pre-bonus score 40, so the badge set does not
reflect the final post-pass score 60 (which would also earn Silver, as
evaluating the final score shows). -/
theorem c6_counterexample :
    (processUser exRepoDave 100 exUserDave).points = 60 ∧
    (processUser exRepoDave 100 exUserDave).badges = ["Bronze Collaborator"] ∧
    "Silver Collaborator" ∉ (processUser exRepoDave 100 exUserDave).badges ∧
    (processUser exRepoDave 100 exUserDave).badges
      ≠ update_badges (processUser exRepoDave 100 exUserDave).points exUserDave.badges := by
  decide

/-- C6 as amended: within a pass the badge evaluator runs after the base
delta is added but before the +20 challenge bonus, so the badge set
reflects the pre-bonus score, the prior score plus the delta; a
bonus-inflated score affects badges only on a later pass. -/
theorem c6_badges_before_bonus (repo : Repo) (now : Int) (d : UserData) :
    (processUser repo now d).badges
      = update_badges (d.points + computeNewPoints repo d.github_user d.last_activity_check)
          d.badges := by
  simp only [processUser]
  split <;> rfl

/-- C9 counterexample, on the demo.py variant of `call_gemini`: a
rate-limit failure (an exception whose text contains 429) is returned
immediately as a user-visible error string; there is no retry and the
literal bounded-failure message is never produced.  The claim requires 3
attempts and the literal message "Error: Gemini API rate limit
exceeded.". -/
theorem c9_counterexample :
    call_gemini_demo (.rateLimited "HTTP Error 429: Too Many Requests")
        = "Error calling AI: HTTP Error 429: Too Many Requests" ∧
    call_gemini_demo (.rateLimited "HTTP Error 429: Too Many Requests")
        ≠ "Error: Gemini API rate limit exceeded." := by decide

/-- C9 as amended (the gamified_bot.py variant): on rate-limit failures
the call retries with delays 1, 2, 4 seconds (doubling from base 1) and
after 3 rate-limited attempts returns the literal bounded-failure message;
a first-attempt non-rate-limit failure returns the user-visible error
string immediately after exactly one attempt with no delay, and a
first-attempt success returns its text after one attempt. -/
theorem c9_bounded_retry (api : Nat → ApiResult) (m0 m1 m2 : String) :
    (api 0 = .rateLimited m0 → api 1 = .rateLimited m1 → api 2 = .rateLimited m2 →
      call_gemini api
        = ⟨"Error: Gemini API rate limit exceeded.", [1, 2, 4], 3⟩) ∧
    (∀ m, api 0 = .failed m → call_gemini api = ⟨"Error calling AI: " ++ m, [], 1⟩) ∧
    (∀ t, api 0 = .ok t → call_gemini api = ⟨t, [], 1⟩) := by
  refine ⟨fun h0 h1 h2 => ?_, fun m h => ?_, fun t h => ?_⟩
  · simp [call_gemini, call_gemini_aux, h0, h1, h2]
  · simp [call_gemini, call_gemini_aux, h]
  · simp [call_gemini, call_gemini_aux, h]

/-- Witness for the amended C9: an API that is rate limited on every
attempt yields the literal bounded-failure message with delays 1, 2, 4
after exactly 3 attempts. -/
theorem c9_bounded_retry_witness :
    call_gemini (fun _ => .rateLimited "429 quota")
      = ⟨"Error: Gemini API rate limit exceeded.", [1, 2, 4], 3⟩ :=
  (c9_bounded_retry (fun _ => .rateLimited "429 quota") "429 quota" "429 quota" "429 quota").1
    rfl rfl rfl

/-- C10: when the two startup clock reads observe the same instant, the
initial global watermark is the Unix epoch itself (0); a user linked
before the first completed pass inherits that epoch watermark, so on the
first pass every commit and every comment of the repository with a
positive (post-epoch) timestamp is within the counting window — the whole
history, not just activity since link time. -/
theorem c10_epoch_initial_watermark (t1 t2 : Int) (handle : String) (repo : Repo)
    (h : t1 = t2) :
    init_last_global_check t1 t2 = 0 ∧
    (link_github (init_last_global_check t1 t2) handle).last_activity_check = 0 ∧
    (∀ c ∈ repo.commits, c.author = handle → 0 < c.timestamp →
      c ∈ countedCommits repo handle
            (link_github (init_last_global_check t1 t2) handle).last_activity_check) ∧
    (∀ cm ∈ repo.comments, 0 < cm.timestamp →
      cm ∈ commentsSince repo
            (link_github (init_last_global_check t1 t2) handle).last_activity_check) := by
  subst h
  have h0 : init_last_global_check t1 t1 = 0 := by
    simp [init_last_global_check]
  have hl : (link_github (init_last_global_check t1 t1) handle).last_activity_check = 0 := by
    simp [link_github, h0]
  refine ⟨h0, hl, fun c hc hauth ht => ?_, fun cm hcm ht => ?_⟩
  · simp only [countedCommits, List.mem_filter, Bool.and_eq_true, beq_iff_eq,
      decide_eq_true_eq, hl]
    exact ⟨hc, hauth, ht⟩
  · simp only [commentsSince, List.mem_filter, decide_eq_true_eq, hl]
    exact ⟨hcm, ht⟩

/-- Witness for C10 at a concrete startup instant and the concrete
repository: the freshly linked alice has watermark 0 and all
positive-timestamp history is in her first counting window. -/
theorem c10_epoch_initial_watermark_witness :
    (1760000000 : Int) = 1760000000 ∧
    (init_last_global_check 1760000000 1760000000 = 0 ∧
      (link_github (init_last_global_check 1760000000 1760000000) "alice").last_activity_check
          = 0 ∧
      (∀ c ∈ exRepo.commits, c.author = "alice" → 0 < c.timestamp →
        c ∈ countedCommits exRepo "alice"
              (link_github (init_last_global_check 1760000000 1760000000)
                "alice").last_activity_check) ∧
      (∀ cm ∈ exRepo.comments, 0 < cm.timestamp →
        cm ∈ commentsSince exRepo
              (link_github (init_last_global_check 1760000000 1760000000)
                "alice").last_activity_check)) :=
  ⟨rfl, c10_epoch_initial_watermark 1760000000 1760000000 "alice" exRepo rfl⟩
